import Mathlib

set_option maxRecDepth 8000

/-!
Verification development for the Jarvis personal-assistant repository.

The definitions below are a shallow embedding of the Python sources under
`src/`: `src/src/time_utils.py`, `src/src/conversation_manager.py`,
`src/src/tasks/task_manager.py`, `src/src/api_logger.py`,
`src/src/storage.py` and the HTTP history route of `src/jarvis_chat.py`.

Modelling conventions:
* Python `datetime` values are `LocalDateTime` records in the configured
  local zone.  The config constant `CLIENT_TIMEZONE` is referenced by
  `src/src/time_utils.py` but absent from `src/src/config.py`; following the
  spec ("falls back to a fixed UTC+2 offset") the local zone is modelled as
  the fixed offset +02:00.
* Floats (confidence scores) are modelled as rationals; all values that
  occur are exact decimals, so no rounding behaviour is lost.
* Ambient nondeterminism (the current clock, generated UUIDs) is passed in
  as explicit parameters.
* Fallible Python code (raising exceptions) is modelled with `Except`.
* JSON-shaped dict payloads are modelled by the `JsonVal` inductive; dict
  literals keep the source's key insertion order.
-/

/-- Single-quote character, used to build Python error strings that contain
quoted values. -/
def squote : String := String.singleton (Char.ofNat 39)

/-- Characters treated as whitespace by Python str.strip and the regex
class backslash-s (ASCII part): space, tab, newline, carriage return,
vertical tab, form feed. -/
def pyIsSpace (c : Char) : Bool :=
  c = ' ' || c = Char.ofNat 9 || c = Char.ofNat 10 || c = Char.ofNat 13 ||
  c = Char.ofNat 11 || c = Char.ofNat 12

/-- Models Python str.strip() (on the ASCII whitespace the system uses). -/
def pyStrip (s : String) : String :=
  String.mk (((s.data.dropWhile pyIsSpace).reverse.dropWhile pyIsSpace).reverse)

/-- Models Python str.lower() (ASCII case folding suffices for the inputs
this system exchanges). -/
def pyLower (s : String) : String :=
  String.mk (s.data.map Char.toLower)

/-- Substring test on character lists; `listContains hay needle` models the
Python expression `needle in hay`. -/
def listContains (hay needle : List Char) : Bool :=
  match hay with
  | [] => needle.isEmpty
  | c :: t => needle.isPrefixOf (c :: t) || listContains t needle

/-- Models the Python containment operator `pat in s` on strings. -/
def strContains (s pat : String) : Bool :=
  listContains s.data pat.data

/-- Models `value.replace("Z", "+00:00")` from `_try_parse_iso`
(src/src/time_utils.py): every occurrence of the one-character pattern is
replaced left to right. -/
def replaceZ : List Char → List Char
  | [] => []
  | c :: cs => if c = 'Z' then '+' :: '0' :: '0' :: ':' :: '0' :: '0' :: replaceZ cs
               else c :: replaceZ cs

/-- String-level wrapper for `replaceZ`. -/
def pyReplaceZ (s : String) : String := String.mk (replaceZ s.data)

/-- Zero-pads a natural number to two digits (strftime %d/%H/%M style). -/
def pad2 (n : Nat) : String :=
  if n < 10 then "0" ++ toString n else toString n

/-- Zero-pads a natural number to four digits (strftime %Y / isoformat year). -/
def pad4 (n : Nat) : String :=
  if n < 10 then "000" ++ toString n
  else if n < 100 then "00" ++ toString n
  else if n < 1000 then "0" ++ toString n
  else toString n

/-- Gregorian leap-year test. -/
def is_leap (y : Nat) : Bool :=
  (y % 4 == 0 && y % 100 != 0) || y % 400 == 0

/-- Number of days in a Gregorian month. -/
def days_in_month (y m : Nat) : Nat :=
  if m = 2 then (if is_leap y then 29 else 28)
  else if m == 4 || m == 6 || m == 9 || m == 11 then 30
  else 31

/-- Days elapsed since 0000-03-01 of the proleptic Gregorian calendar
(valid for the years a Python `datetime` can hold, all of which are
positive). -/
def daysFromCivil (y m d : Nat) : Nat :=
  let y' := if m ≤ 2 then y - 1 else y
  let era := y' / 400
  let yoe := y' % 400
  let mp := (m + 9) % 12
  let doy := (153 * mp + 2) / 5 + d - 1
  let doe := yoe * 365 + yoe / 4 - yoe / 100 + doy
  era * 146097 + doe

/-- Inverse of `daysFromCivil`: civil date (year, month, day) of a day
count. -/
def civilFromDays (z : Nat) : Nat × Nat × Nat :=
  let era := z / 146097
  let doe := z % 146097
  let yoe := (doe - doe / 1460 + doe / 36524 - doe / 146096) / 365
  let y := yoe + era * 400
  let doy := doe - (365 * yoe + yoe / 4 - yoe / 100)
  let mp := (5 * doy + 2) / 153
  let d := doy - (153 * mp + 2) / 5 + 1
  let m := if mp < 10 then mp + 3 else mp - 9
  (if m ≤ 2 then y + 1 else y, m, d)

/-- A Python `datetime` expressed in the configured local zone. -/
structure LocalDateTime where
  year : Nat
  month : Nat
  day : Nat
  hour : Nat
  minute : Nat
  second : Nat
deriving DecidableEq, Repr

/-- The invariant every Python `datetime` object satisfies (datetime.MINYEAR
= 1, datetime.MAXYEAR = 9999; field ranges validated at construction). -/
def ValidPyDateTime (dt : LocalDateTime) : Prop :=
  1 ≤ dt.year ∧ dt.year ≤ 9999 ∧ 1 ≤ dt.month ∧ dt.month ≤ 12 ∧
  1 ≤ dt.day ∧ dt.day ≤ days_in_month dt.year dt.month ∧
  dt.hour ≤ 23 ∧ dt.minute ≤ 59 ∧ dt.second ≤ 59

/-- Models `reference + timedelta(days=n)` followed by keeping the full
timestamp. -/
def add_days (dt : LocalDateTime) (n : Nat) : LocalDateTime :=
  let c := civilFromDays (daysFromCivil dt.year dt.month dt.day + n)
  ⟨c.1, c.2.1, c.2.2, dt.hour, dt.minute, dt.second⟩

/-- Shifts a datetime by a signed number of minutes (used by the
astimezone conversion); seconds are unaffected. -/
def shift_minutes (dt : LocalDateTime) (delta : Int) : LocalDateTime :=
  let total : Int :=
    (daysFromCivil dt.year dt.month dt.day : Int) * 1440 + dt.hour * 60 + dt.minute + delta
  let days := Int.ediv total 1440
  let mins := (Int.emod total 1440).toNat
  let c := civilFromDays days.toNat
  ⟨c.1, c.2.1, c.2.2, mins / 60, mins % 60, dt.second⟩

/-- Modelled from the spec: the `CLIENT_TIMEZONE` constant imported by
src/src/time_utils.py is missing from src/src/config.py; the spec fixes the
fallback local zone to UTC+2, i.e. +120 minutes. -/
def LOCAL_OFFSET_MINUTES : Int := 120

/-- Models `datetime.astimezone(LOCAL_ZONE)` applied to a datetime carrying
an explicit UTC offset of `offset` minutes. -/
def astimezone_local (dt : LocalDateTime) (offset : Int) : LocalDateTime :=
  shift_minutes dt (LOCAL_OFFSET_MINUTES - offset)

/-- Late-hour threshold constant of src/src/time_utils.py. -/
def LATE_HOUR_THRESHOLD : Nat := 21

/-- Models `is_late_hour` (src/src/time_utils.py): true when the local hour
is at or after 21.  The source's astimezone call is the identity here
because our datetimes are already local. -/
def is_late_hour (dt : LocalDateTime) : Bool :=
  dt.hour ≥ LATE_HOUR_THRESHOLD

/-- Weekday names as produced by strftime %A; index 0 is Monday. -/
def WEEKDAY_NAMES : List String :=
  ["Monday", "Tuesday", "Wednesday", "Thursday", "Friday", "Saturday", "Sunday"]

/-- Month names as produced by strftime %B; index 0 is January. -/
def MONTH_NAMES : List String :=
  ["January", "February", "March", "April", "May", "June", "July",
   "August", "September", "October", "November", "December"]

/-- Models `format_human` (src/src/time_utils.py): strftime
"%A, %d %B %Y, %H:%M" in the local zone. -/
def format_human (dt : LocalDateTime) : String :=
  (WEEKDAY_NAMES.getD ((daysFromCivil dt.year dt.month dt.day + 2) % 7) "") ++ ", " ++
  pad2 dt.day ++ " " ++ (MONTH_NAMES.getD (dt.month - 1) "") ++ " " ++
  pad4 dt.year ++ ", " ++ pad2 dt.hour ++ ":" ++ pad2 dt.minute

/-- Models `datetime.isoformat()` of a zone-aware local datetime: the
"+02:00" suffix is the modelled local zone offset. -/
def isoformat (dt : LocalDateTime) : String :=
  pad4 dt.year ++ "-" ++ pad2 dt.month ++ "-" ++ pad2 dt.day ++ "T" ++
  pad2 dt.hour ++ ":" ++ pad2 dt.minute ++ ":" ++ pad2 dt.second ++ "+02:00"

/-- Reads exactly `n` decimal digits, failing otherwise. -/
def readDigits : Nat → Nat → List Char → Option (Nat × List Char)
  | 0, acc, cs => some (acc, cs)
  | _ + 1, _, [] => none
  | n + 1, acc, c :: cs =>
    if c.isDigit then readDigits n (acc * 10 + (c.toNat - 48)) cs else none

/-- Consumes one expected character. -/
def expectChar (c : Char) : List Char → Option (List Char)
  | x :: cs => if x = c then some cs else none
  | [] => none

/-- Models `datetime.fromisoformat` on the ISO-8601 shapes this system
exchanges: "YYYY-MM-DD" optionally followed by a separator ('T' or space),
"HH:MM", optional ":SS", and an optional "+HH:MM"/"-HH:MM" offset (a
trailing "Z" is rewritten to "+00:00" by the caller before parsing).
Returns the parsed fields plus the offset in minutes when one was given;
out-of-range fields fail, as the Python constructor raises on them. -/
def fromisoformat (s : String) : Option (LocalDateTime × Option Int) := do
  let cs := s.data
  let (y, cs) ← readDigits 4 0 cs
  let cs ← expectChar '-' cs
  let (mo, cs) ← readDigits 2 0 cs
  let cs ← expectChar '-' cs
  let (d, cs) ← readDigits 2 0 cs
  let (h, mi, sec, offset, rest) ←
    match cs with
    | [] => some (0, 0, 0, (none : Option Int), ([] : List Char))
    | sep :: cs1 =>
      if sep = 'T' ∨ sep = ' ' then do
        let (h, cs2) ← readDigits 2 0 cs1
        let cs3 ← expectChar ':' cs2
        let (mi, cs4) ← readDigits 2 0 cs3
        let (sec, cs5) ←
          match cs4 with
          | ':' :: cs' => readDigits 2 0 cs'
          | _ => some (0, cs4)
        let (offset, cs6) ←
          match cs5 with
          | [] => some ((none : Option Int), ([] : List Char))
          | sign :: cs' =>
            if sign = '+' ∨ sign = '-' then do
              let (oh, cs7) ← readDigits 2 0 cs'
              let cs8 ← expectChar ':' cs7
              let (om, cs9) ← readDigits 2 0 cs8
              if oh ≤ 23 ∧ om ≤ 59 then
                some (some ((if sign = '-' then (-1 : Int) else 1) * ((oh : Int) * 60 + om)), cs9)
              else none
            else none
        some (h, mi, sec, offset, cs6)
      else none
  if rest = [] ∧ 1 ≤ y ∧ 1 ≤ mo ∧ mo ≤ 12 ∧ 1 ≤ d ∧ d ≤ days_in_month y mo ∧
     h ≤ 23 ∧ mi ≤ 59 ∧ sec ≤ 59 then
    some (⟨y, mo, d, h, mi, sec⟩, offset)
  else none

/-- Models `_try_parse_iso` (src/src/time_utils.py): rewrite "Z" to
"+00:00", parse, default a missing zone to the local zone, and convert an
explicit offset to local time. -/
def try_parse_iso (value : String) : Option LocalDateTime :=
  match fromisoformat (pyReplaceZ value) with
  | none => none
  | some (dt, none) => some dt
  | some (dt, some o) => some (astimezone_local dt o)

/-- Outcome of resolving a time reference (src/src/time_utils.py
`TimeResolution`).  The source stores the `.isoformat()` string of the
resolved local datetime in `iso` and re-parses it with
`datetime.fromisoformat` at each use; we store the instant itself and apply
`isoformat` wherever the source passes the string on, making the re-parse
the identity. -/
structure TimeResolution where
  iso : Option LocalDateTime
  confidence : ℚ
  source_text : String
  is_relative : Bool
deriving DecidableEq, Repr

/-- The fixed relative keywords with their day offsets, in match order. -/
def RELATIVE_KEYWORDS : List (String × Nat) :=
  [("day after tomorrow", 2), ("tomorrow", 1), ("today", 0), ("tonight", 0)]

/-- First match of the clock-time pattern: 1-2 digits, optional ":DD",
optional whitespace, optional case-insensitive am/pm.  Mirrors a
`TIME_PATTERN.search`: the leftmost digit starts the match (the pattern
must begin with a digit and any digit yields a match), the hour is greedy
up to two digits, the minute group needs a ':' followed by exactly two
digits. -/
def matchHour : List Char → Nat × List Char
  | c :: d :: cs =>
    if d.isDigit then ((c.toNat - 48) * 10 + (d.toNat - 48), cs)
    else (c.toNat - 48, d :: cs)
  | [c] => (c.toNat - 48, [])
  | [] => (0, [])

/-- Optional ":DD" minute group of the clock-time pattern. -/
def matchMinute : List Char → Option Nat × List Char
  | ':' :: a :: b :: cs =>
    if a.isDigit ∧ b.isDigit then (some ((a.toNat - 48) * 10 + (b.toNat - 48)), cs)
    else (none, ':' :: a :: b :: cs)
  | cs => (none, cs)

/-- Optional whitespace then optional case-insensitive am/pm marker. -/
def matchAmPm (cs : List Char) : Option String :=
  match cs.dropWhile pyIsSpace with
  | a :: m :: _ =>
    if a.toLower = 'a' ∧ m.toLower = 'm' then some "am"
    else if a.toLower = 'p' ∧ m.toLower = 'm' then some "pm"
    else none
  | _ => none

/-- Leftmost match of the clock-time pattern over the input characters. -/
def findTimeMatch : List Char → Option (Nat × Option Nat × Option String)
  | [] => none
  | c :: cs =>
    if c.isDigit then
      let h := matchHour (c :: cs)
      let mi := matchMinute h.2
      some (h.1, mi.1, matchAmPm mi.2)
    else findTimeMatch cs

/-- Python min on two rationals (`min(a, b)`): the second argument when it
is strictly smaller, else the first.  Written with the primitive rational
comparison so it evaluates by reduction. -/
def pymin (a b : ℚ) : ℚ := cond (Rat.blt b a) b a

/-- Models `_extract_time` (src/src/time_utils.py): find a clock time in
the text, apply the am/pm rules (pm adds 12 below noon, 12am is midnight,
a bare 24 is midnight), clamp hour/minute into range (`max(0, min(x, k))`,
where the max is vacuous on naturals), confidence 0.9. -/
def extract_time (value : String) : Option ((Nat × Nat) × ℚ) :=
  match findTimeMatch value.data with
  | none => none
  | some (hour0, minuteOpt, ampm) =>
    let minute := minuteOpt.getD 0
    let hour :=
      match ampm with
      | some a =>
        if a = "pm" ∧ hour0 < 12 then hour0 + 12
        else if a = "am" ∧ hour0 = 12 then 0
        else hour0
      | none => if hour0 = 24 then 0 else hour0
    some (((if hour ≤ 23 then hour else 23), (if minute ≤ 59 then minute else 59)),
          mkRat 9 10)

/-- Models `_try_parse_relative` (src/src/time_utils.py).  `value` is the
trimmed, lowercased input; `reference` is the anchor instant.  The source's
`relative_flag` conditional assigns True in both branches, so the flag is
always true here. -/
def try_parse_relative (value : String) (reference : LocalDateTime) :
    Option TimeResolution :=
  match RELATIVE_KEYWORDS.find? (fun kw => strContains value kw.1) with
  | none => none
  | some (keyword, offset_days) =>
    let target := add_days reference offset_days
    let extracted := extract_time value
    let tc :=
      match extracted with
      | some p => p
      | none => ((9, 0), mkRat 3 5)
    let tc :=
      if keyword = "tonight" ∧ extracted = none then ((20, 0), mkRat 7 10) else tc
    let localized_dt : LocalDateTime :=
      ⟨target.year, target.month, target.day, tc.1.1, tc.1.2, 0⟩
    some ⟨some localized_dt, pymin (mkRat 9 10) tc.2, value, true⟩

/-- Models `resolve_time_reference` (src/src/time_utils.py).  The optional
`reference` defaulting to `now_local()` in the source is the explicit
`reference` parameter here; a `none`/empty value is falsy and short-circuits. -/
def resolve_time_reference (value : Option String) (reference : LocalDateTime) :
    TimeResolution :=
  match value with
  | none => ⟨none, 0, "", false⟩
  | some v =>
    if v = "" then ⟨none, 0, "", false⟩
    else
      let trimmed := pyStrip v
      match try_parse_iso trimmed with
      | some iso_result => ⟨some iso_result, 1, trimmed, false⟩
      | none =>
        match try_parse_relative (pyLower trimmed) reference with
        | some r => r
        | none => ⟨none, 0, trimmed, false⟩

/-- Rounds 100 times a nonnegative rational to the nearest integer, ties
to even — the scaling and rounding performed by a "%.2f" format.  Works
directly on the numerator and denominator so it evaluates by reduction. -/
def roundHalfEven100 (q : ℚ) : Int :=
  let a := q.num * 100
  let b := (q.den : Int)
  let m := Int.ediv a b
  let r := Int.emod a b
  if 2 * r < b then m
  else if b < 2 * r then m + 1
  else if Int.emod m 2 = 0 then m else m + 1

/-- Models the f-string format specifier ":.2f" on a nonnegative
confidence value. -/
def format2f (q : ℚ) : String :=
  let n := roundHalfEven100 q
  let i := Int.ediv n 100
  let r := (Int.emod n 100).toNat
  toString i ++ "." ++ (if r < 10 then "0" else "") ++ toString r

/-- Confidence threshold of src/src/conversation_manager.py (0.98). -/
def DATE_CONFIDENCE_THRESHOLD : ℚ := mkRat 49 50

/-- JSON-shaped values, modelling the dict/list payloads the tool handlers
build and serialize. -/
inductive JsonVal where
  | null : JsonVal
  | bool : Bool → JsonVal
  | num : ℚ → JsonVal
  | str : String → JsonVal
  | arr : List JsonVal → JsonVal
  | obj : List (String × JsonVal) → JsonVal

/-- JSON rendering of an optional string (absent becomes null). -/
def optStrJson : Option String → JsonVal
  | none => JsonVal.null
  | some s => JsonVal.str s

/-- One entry of the `normalized` mapping built by
`_ensure_confident_times`: the source stores the iso string, the
human-readable rendering, the confidence, the relative flag, the raw input
and the late-hour flag. -/
structure ResolvedField where
  iso : String
  human : String
  confidence : ℚ
  is_relative : Bool
  raw : String
  late_hour : Bool
deriving DecidableEq, Repr

/-- Association-list lookup modelling Python `dict.get` on the tool-call
argument mapping. -/
def lookupArg (args : List (String × String)) (k : String) : Option String :=
  (args.find? (fun p => p.1 == k)).map (fun p => p.2)

/-- Association-list lookup on the normalized resolved-field mapping. -/
def lookupField (normalized : List (String × ResolvedField)) (k : String) :
    Option ResolvedField :=
  (normalized.find? (fun p => p.1 == k)).map (fun p => p.2)

/-- Models `_build_confirmation_error` (src/src/conversation_manager.py). -/
def build_confirmation_error (issues : List String)
    (normalized : List (String × ResolvedField)) : JsonVal :=
  .obj [("success", .bool false),
        ("error", .str "DATE_CONFIRMATION_REQUIRED"),
        ("details", .obj
          [("issues", .arr (issues.map JsonVal.str)),
           ("resolved_values", .obj (normalized.map (fun p =>
             (p.1, JsonVal.obj
               [("raw", .str p.2.raw),
                ("interpreted", .str p.2.human),
                ("confidence", .num p.2.confidence)]))))])]

/-- Models `_summarize_resolutions` (src/src/conversation_manager.py). -/
def summarize_resolutions (normalized : List (String × ResolvedField)) : JsonVal :=
  if normalized = [] then .obj []
  else .obj (normalized.map (fun p =>
    (p.1, JsonVal.obj [("iso", .str p.2.iso), ("human", .str p.2.human)])))

/-- Result of the date-confirmation gate: either the normalized mapping
(the source's `(normalized, None)` tuple) or the structured confirmation
error payload (the source's `(None, error)` tuple). -/
inductive EnsureOutcome where
  | ok : List (String × ResolvedField) → EnsureOutcome
  | confirm : JsonVal → EnsureOutcome

/-- One iteration of the field loop of `_ensure_confident_times`
(src/src/conversation_manager.py), processing `field` against the
accumulated (normalized, issues) pair.  The source's
`datetime.fromisoformat(resolution.iso)` is the identity in this embedding
(see `TimeResolution`). -/
def ensure_step (now : LocalDateTime) (args : List (String × String))
    (required_fields : List String)
    (acc : List (String × ResolvedField) × List String) (field : String) :
    List (String × ResolvedField) × List String :=
  match lookupArg args field with
  | none =>
    if field ∈ required_fields then (acc.1, acc.2 ++ [field ++ " is required."]) else acc
  | some raw =>
    if raw = "" then
      if field ∈ required_fields then (acc.1, acc.2 ++ [field ++ " is required."]) else acc
    else
      let resolution := resolve_time_reference (some raw) now
      match resolution.iso with
      | none =>
        (acc.1, acc.2 ++
          [field ++ " could not be interpreted from " ++ squote ++ raw ++ squote ++ "."])
      | some localized =>
        let info : ResolvedField :=
          { iso := isoformat localized, human := format_human localized,
            confidence := resolution.confidence, is_relative := resolution.is_relative,
            raw := raw, late_hour := is_late_hour localized }
        let acc1 := (acc.1 ++ [(field, info)], acc.2)
        let acc2 :=
          if resolution.confidence < DATE_CONFIDENCE_THRESHOLD then
            (acc1.1, acc1.2 ++
              [field ++ " confidence " ++ format2f resolution.confidence ++
               " below required threshold."])
          else acc1
        if is_late_hour localized then
          (acc2.1, acc2.2 ++ [field ++ " occurs late in the day; confirm with the client."])
        else acc2

/-- Models `_ensure_confident_times` (src/src/conversation_manager.py):
walk the required then optional time fields, collect issues, and either
return the normalized mapping or the confirmation error payload. -/
def ensure_confident_times (now : LocalDateTime) (args : List (String × String))
    (required_fields : List String) (optional_fields : List String) : EnsureOutcome :=
  let acc := (required_fields ++ optional_fields).foldl
    (ensure_step now args required_fields) ([], [])
  if acc.2 = [] then .ok acc.1 else .confirm (build_confirmation_error acc.2 acc.1)

/-- The date-issue condition of the confirmation gate for one field, as the
spec states it: a required field absent or blank, or a supplied field that
does not resolve, resolves below the 0.98 confidence threshold, or
resolves to a late-hour (>= 21:00) local time. -/
def timeFieldIssue (now : LocalDateTime) (args : List (String × String))
    (required_fields : List String) (field : String) : Prop :=
  ((lookupArg args field = none ∨ lookupArg args field = some "") ∧ field ∈ required_fields)
  ∨ (∃ raw, lookupArg args field = some raw ∧ raw ≠ "" ∧
      ((resolve_time_reference (some raw) now).iso = none
       ∨ ∃ dt, (resolve_time_reference (some raw) now).iso = some dt ∧
           ((resolve_time_reference (some raw) now).confidence < DATE_CONFIDENCE_THRESHOLD
            ∨ is_late_hour dt = true)))

/-- A payload produced by `build_confirmation_error` from a nonempty issue
list: the failure shape tagged DATE_CONFIRMATION_REQUIRED. -/
def is_confirmation_payload (p : JsonVal) : Prop :=
  ∃ issues normalized, issues ≠ [] ∧ p = build_confirmation_error issues normalized

/-- The provider event record (src/src/calendar/google_calendar_provider.py
`CalendarEvent`); `end_` is the source's `end` field. -/
structure CalendarEvent where
  event_id : Option String
  summary : String
  start : String
  end_ : String
  description : Option String
  location : Option String
deriving DecidableEq, Repr

/-- Models `CalendarEvent.to_dict`. -/
def CalendarEvent.to_dict (ev : CalendarEvent) : JsonVal :=
  .obj [("id", optStrJson ev.event_id), ("summary", .str ev.summary),
        ("start", .str ev.start), ("end", .str ev.end_),
        ("description", optStrJson ev.description), ("location", optStrJson ev.location)]

/-- Abstraction of the calendar provider as seen by the tool handlers: the
two src operations may fail (HTTP failures re-raised as runtime errors);
`get_event` is Modelled from the spec: the method is called by the
handlers but absent from src/src/calendar/google_calendar_provider.py, and
the spec describes it as a best-effort read-back whose failure or
no-match yields an absent value rather than an error. -/
structure CalendarStub where
  list_events_in_range : String → String → Except String (List CalendarEvent)
  create_event : String → String → String → Option String → Option String →
    Except String CalendarEvent
  get_event : String → Option CalendarEvent

/-- External operations a tool handler can invoke, recorded in invocation
order so that theorems can state which underlying calls happened. -/
inductive ProviderCall where
  | listEventsInRange (start_time end_time : String)
  | createEvent (summary start_time end_time : String)
      (description location : Option String)
  | getEvent (event_id : String)
  | createTask (title : String) (description due_date : Option String) (priority : String)
  | updateTask (task_id : String) (title description due_date priority : Option String)
deriving DecidableEq, Repr

/-- Models `self.calendar.get_event(event.event_id) if event.event_id else
None`: the read-back happens only when the created event carries a truthy
identifier. -/
def verification_read (cal : CalendarStub) (ev : CalendarEvent) : Option CalendarEvent :=
  match ev.event_id with
  | some eid => if eid = "" then none else cal.get_event eid
  | none => none

/-- The provider calls issued by the verification read-back. -/
def verification_calls (ev : CalendarEvent) : List ProviderCall :=
  match ev.event_id with
  | some eid => if eid = "" then [] else [.getEvent eid]
  | none => []

/-- Models `_event_to_dict` (src/src/conversation_manager.py) on the values
that actually reach it here: a `CalendarEvent` or an absent value. -/
def event_to_dict_opt : Option CalendarEvent → JsonVal
  | none => .null
  | some ev => ev.to_dict

/-- Error message raised by `_handle_create_event` when the summary is
missing or blank. -/
def create_event_required_msg : String :=
  "summary, start_time, and end_time are required to create events."

/-- Models `_handle_check_calendar_status` (src/src/conversation_manager.py):
gate the start/end fields, then list the window.  The pair's second
component records the provider operations invoked. -/
def handle_check_calendar_status (cal : CalendarStub) (now : LocalDateTime)
    (args : List (String × String)) : Except String JsonVal × List ProviderCall :=
  match ensure_confident_times now args ["start_time", "end_time"] [] with
  | .confirm payload => (.ok payload, [])
  | .ok normalized =>
    match lookupField normalized "start_time", lookupField normalized "end_time" with
    | some si, some ei =>
      match cal.list_events_in_range si.iso ei.iso with
      | .error e => (.error e, [.listEventsInRange si.iso ei.iso])
      | .ok events =>
        (.ok (.obj [("conflicts", .arr (events.map CalendarEvent.to_dict)),
                    ("is_available", .bool (events.length == 0)),
                    ("resolved_times", summarize_resolutions normalized)]),
         [.listEventsInRange si.iso ei.iso])
    | _, _ => (.error "KeyError", [])

/-- Models `_handle_create_event` (src/src/conversation_manager.py):
require a truthy summary, gate start/end, re-check the window for
conflicts, create, then do the best-effort read-back. -/
def handle_create_event (cal : CalendarStub) (now : LocalDateTime)
    (args : List (String × String)) : Except String JsonVal × List ProviderCall :=
  match lookupArg args "summary" with
  | none => (.error create_event_required_msg, [])
  | some summary =>
    if summary = "" then (.error create_event_required_msg, [])
    else
      match ensure_confident_times now args ["start_time", "end_time"] [] with
      | .confirm payload => (.ok payload, [])
      | .ok normalized =>
        match lookupField normalized "start_time", lookupField normalized "end_time" with
        | some si, some ei =>
          match cal.list_events_in_range si.iso ei.iso with
          | .error e => (.error e, [.listEventsInRange si.iso ei.iso])
          | .ok conflicts =>
            if conflicts ≠ [] then
              (.ok (.obj [("created", .bool false),
                          ("conflicts", .arr (conflicts.map CalendarEvent.to_dict)),
                          ("message", .str "Timeslot is unavailable."),
                          ("resolved_times", summarize_resolutions normalized)]),
               [.listEventsInRange si.iso ei.iso])
            else
              match cal.create_event summary si.iso ei.iso
                  (lookupArg args "description") (lookupArg args "location") with
              | .error e =>
                (.error e,
                 [.listEventsInRange si.iso ei.iso,
                  .createEvent summary si.iso ei.iso
                    (lookupArg args "description") (lookupArg args "location")])
              | .ok event =>
                (.ok (.obj [("created", .bool true),
                            ("event", event.to_dict),
                            ("resolved_times", summarize_resolutions normalized),
                            ("verification",
                             event_to_dict_opt (verification_read cal event))]),
                 [.listEventsInRange si.iso ei.iso,
                  .createEvent summary si.iso ei.iso
                    (lookupArg args "description") (lookupArg args "location")] ++
                 verification_calls event)
        | _, _ => (.error "KeyError", [])

/-- The task record (src/src/tasks/task_manager.py). -/
structure TaskRec where
  id : String
  title : String
  description : Option String
  due_date : Option String
  priority : String
  status : String
  created_at : String
  updated_at : String
deriving DecidableEq, Repr

/-- JSON rendering of a task record. -/
def task_to_json (t : TaskRec) : JsonVal :=
  .obj [("id", .str t.id), ("title", .str t.title),
        ("description", optStrJson t.description), ("due_date", optStrJson t.due_date),
        ("priority", .str t.priority), ("status", .str t.status),
        ("created_at", .str t.created_at), ("updated_at", .str t.updated_at)]

/-- The valid priority labels. -/
def VALID_PRIORITIES : List String := ["low", "normal", "high"]

/-- The valid status labels. -/
def VALID_STATUSES : List String := ["pending", "completed"]

/-- Models `_normalize_priority` (src/src/tasks/task_manager.py): falsy
input and unknown labels coerce to "normal"; known labels pass through
lowercased. -/
def normalize_priority : Option String → String
  | none => "normal"
  | some v =>
    if v = "" then "normal"
    else
      let v := pyLower v
      if v ∈ VALID_PRIORITIES then v else "normal"

/-- Models `_normalize_status` (src/src/tasks/task_manager.py): lowercases,
then rejects anything outside the two-value set with a ValueError. -/
def normalize_status (value : String) : Except String String :=
  let value := pyLower value
  if value ∈ VALID_STATUSES then .ok value
  else .error ("Unsupported status " ++ squote ++ value ++ squote ++ ".")

/-- Models `TaskManager.create_task`: `uuid` and `ts` stand for the
generated uuid4 and the current UTC timestamp.  Returns the created record
and the task list written back to storage. -/
def create_task (uuid ts : String) (tasks : List TaskRec) (title : String)
    (description due_date : Option String) (priority : String) : TaskRec × List TaskRec :=
  let task : TaskRec :=
    { id := uuid, title := pyStrip title,
      description :=
        (match description with
         | none => none
         | some d => let s := pyStrip d; if s = "" then none else some s),
      due_date := due_date, priority := normalize_priority (some priority),
      status := "pending", created_at := ts, updated_at := ts }
  (task, tasks ++ [task])

/-- The field-update block of `TaskManager.update_task`, applied to the
matching task in the source's order: title, description, due date,
priority, then status (whose validation may raise), then the updated-at
refresh. -/
def apply_task_updates (ts : String) (t : TaskRec)
    (title description due_date priority status : Option String) :
    Except String TaskRec := do
  let t := match title with
    | none => t
    | some v => { t with title := pyStrip v }
  let t := match description with
    | none => t
    | some v =>
      { t with description := (let s := pyStrip v; if s = "" then none else some s) }
  let t := match due_date with
    | none => t
    | some v => { t with due_date := some v }
  let t := match priority with
    | none => t
    | some v => { t with priority := normalize_priority (some v) }
  let t ← match status with
    | none => pure t
    | some v => do
      let s ← normalize_status v
      pure { t with status := s }
  pure { t with updated_at := ts }

/-- Not-found error text of the task manager. -/
def task_not_found_msg (task_id : String) : String :=
  "Task with id " ++ squote ++ task_id ++ squote ++ " was not found."

/-- The search loop of `TaskManager.update_task` over the loaded task
list: updates the first task matching the identifier, keeping the rest. -/
def update_task_go (ts task_id : String)
    (title description due_date priority status : Option String) :
    List TaskRec → Except String (TaskRec × List TaskRec)
  | [] => .error (task_not_found_msg task_id)
  | t :: rest =>
    if t.id = task_id then
      match apply_task_updates ts t title description due_date priority status with
      | .error e => .error e
      | .ok t2 => .ok (t2, t2 :: rest)
    else
      match update_task_go ts task_id title description due_date priority status rest with
      | .error e => .error e
      | .ok p => .ok (p.1, t :: p.2)

/-- Models `TaskManager.update_task` including its storage effect: the
first component is the returned record or the raised error, the second is
the persisted task list — `write_tasks` runs only on the success path, so
an exception leaves the stored list untouched (the mutated in-memory copy
is discarded, since `get_tasks` re-reads the file). -/
def update_task (ts : String) (tasks : List TaskRec) (task_id : String)
    (title description due_date priority status : Option String) :
    Except String TaskRec × List TaskRec :=
  match update_task_go ts task_id title description due_date priority status tasks with
  | .ok p => (.ok p.1, p.2)
  | .error e => (.error e, tasks)

/-- Models `_handle_create_task` (src/src/conversation_manager.py):
require a truthy title, gate the optional due date, then delegate to the
task manager.  Returns the handler result, the operations invoked, and the
resulting stored task list. -/
def handle_create_task (uuid ts : String) (tasks : List TaskRec)
    (now : LocalDateTime) (args : List (String × String)) :
    Except String JsonVal × List ProviderCall × List TaskRec :=
  match lookupArg args "title" with
  | none => (.error "title is required to create a task.", [], tasks)
  | some title =>
    if title = "" then (.error "title is required to create a task.", [], tasks)
    else
      match ensure_confident_times now args [] ["due_date"] with
      | .confirm payload => (.ok payload, [], tasks)
      | .ok normalized =>
        let due := (lookupField normalized "due_date").map (fun i => i.iso)
        let priority := (lookupArg args "priority").getD "normal"
        let ct := create_task uuid ts tasks title (lookupArg args "description") due priority
        (.ok (.obj ([("task", task_to_json ct.1)] ++
               (if normalized ≠ [] then [("resolved_times", summarize_resolutions normalized)]
                else []))),
         [.createTask title (lookupArg args "description") due priority], ct.2)

/-- Models `_handle_update_task` (src/src/conversation_manager.py):
require a truthy task id, gate the optional due date (falling back to the
raw argument when nothing was resolved, as the source does), then delegate
to the task manager without a status argument. -/
def handle_update_task (ts : String) (tasks : List TaskRec)
    (now : LocalDateTime) (args : List (String × String)) :
    Except String JsonVal × List ProviderCall × List TaskRec :=
  match lookupArg args "task_id" with
  | none => (.error "task_id is required to update a task.", [], tasks)
  | some task_id =>
    if task_id = "" then (.error "task_id is required to update a task.", [], tasks)
    else
      match ensure_confident_times now args [] ["due_date"] with
      | .confirm payload => (.ok payload, [], tasks)
      | .ok normalized =>
        let due :=
          if normalized ≠ [] then (lookupField normalized "due_date").map (fun i => i.iso)
          else lookupArg args "due_date"
        let ut := update_task ts tasks task_id (lookupArg args "title")
          (lookupArg args "description") due (lookupArg args "priority") none
        match ut.1 with
        | .error e =>
          (.error e,
           [.updateTask task_id (lookupArg args "title") (lookupArg args "description")
             due (lookupArg args "priority")], ut.2)
        | .ok task =>
          (.ok (.obj ([("task", task_to_json task)] ++
                 (if normalized ≠ [] then [("resolved_times", summarize_resolutions normalized)]
                  else []))),
           [.updateTask task_id (lookupArg args "title") (lookupArg args "description")
             due (lookupArg args "priority")], ut.2)

/-- One model-issued tool request (src/src/openai_client.py `ToolRequest`). -/
structure ToolRequestRec where
  id : String
  name : String
  arguments : List (String × String)
deriving DecidableEq, Repr

/-- The slice of a `ModelResponse` the conversation loop branches on:
optional final text and the parsed tool calls. -/
structure LoopResponse where
  content : Option String
  tool_calls : List ToolRequestRec
deriving DecidableEq, Repr

/-- The fatal error text of `_run_conversation_loop`. -/
def UNABLE_MSG : String :=
  "Unable to complete the response after handling tool calls. Please try again."

/-- The loop bound set in the conversation manager constructor. -/
def max_tool_iterations : Nat := 3

/-- A Python exception, as the per-turn boundary of `process_message`
distinguishes them: a RuntimeError is rewritten by
`_format_error_message`, any other exception gets the generic
unexpected-error wrapper. -/
inductive PyError where
  | runtimeError (msg : String)
  | typeError (msg : String)
deriving DecidableEq, Repr

/-- The parameter list of `ConversationStorage.add_message` as declared in
src/src/storage.py (no var-keyword parameter). -/
def add_message_params : List String := ["self", "session_id", "role", "content"]

/-- CPython call binding for positional-then-keyword calls: with `npos`
positional arguments bound to the leading parameters, every keyword must
name one of the remaining parameters unless the callee declares a
var-keyword parameter; otherwise the call raises TypeError. -/
def binds_python_call (params : List String) (has_var_kwargs : Bool) (npos : Nat)
    (kwargs : List String) : Bool :=
  decide (npos ≤ params.length) &&
  kwargs.all (fun k => has_var_kwargs || (params.drop npos).contains k)

/-- The TypeError text CPython raises when a call passes the unexpected
keyword `kw` to `ConversationStorage.add_message`. -/
def ADD_MESSAGE_TYPE_ERROR (kw : String) : String :=
  "add_message() got an unexpected keyword argument " ++ squote ++ kw ++ squote

/-- The extra fields of the assistant message built by
`OpenAIClient._message_to_dict` (src/src/openai_client.py): beyond role
and content it carries exactly a tool_calls key, present iff the response
holds tool calls.  These are the keywords `_run_conversation_loop`
forwards to `storage.add_message`. -/
def assistant_extra_fields (r : LoopResponse) : List String :=
  if r.tool_calls ≠ [] then ["tool_calls"] else []

/-- The iteration structure of `_run_conversation_loop`
(src/src/conversation_manager.py), with the completion client modelled as
its successive responses `client 0`, `client 1`, ....  Each pass calls the
client, then persists the assistant message via
`storage.add_message(session_id, role, content, **extra_fields)` — a call
that raises TypeError whenever the extra fields fail to bind against the
declared parameter list (the signature bug reported under C2); on tool
calls it runs `_handle_tool_calls`, whose per-tool persistence passes the
tool_call_id and name keywords (with the declared parameter list that
point is unreachable, the assistant-message persistence having already
raised), then continues; on truthy content it returns; otherwise it falls
through to the fatal RuntimeError.  The second component counts client
calls. -/
def run_loop_aux (client : Nat → LoopResponse) (calls : Nat) :
    Nat → Except PyError String × Nat
  | 0 => (.error (.runtimeError UNABLE_MSG), calls)
  | fuel + 1 =>
    let r := client calls
    if binds_python_call add_message_params false 4 (assistant_extra_fields r) then
      if r.tool_calls ≠ [] then
        if binds_python_call add_message_params false 4 ["tool_call_id", "name"] then
          run_loop_aux client (calls + 1) fuel
        else (.error (.typeError (ADD_MESSAGE_TYPE_ERROR "tool_call_id")), calls + 1)
      else
        match r.content with
        | some c =>
          if c ≠ "" then (.ok c, calls + 1)
          else (.error (.runtimeError UNABLE_MSG), calls + 1)
        | none => (.error (.runtimeError UNABLE_MSG), calls + 1)
    else (.error (.typeError (ADD_MESSAGE_TYPE_ERROR "tool_calls")), calls + 1)

/-- Models `_run_conversation_loop`: the bounded loop from a fresh turn. -/
def run_conversation_loop (client : Nat → LoopResponse) : Except PyError String × Nat :=
  run_loop_aux client 0 max_tool_iterations

/-- The calendar-specific rewrite of `_format_error_message`. -/
def calendar_error_message : String :=
  "I couldn" ++ squote ++ "t access Google Calendar. Please re-run the calendar " ++
  "authentication helper or verify ENABLE_CALENDAR is true."

/-- Models `_format_error_message` (src/src/conversation_manager.py). -/
def format_error_message (error_text : String) : String :=
  if strContains (pyLower error_text) "google calendar" then calendar_error_message
  else error_text

/-- The per-turn exception boundary of `process_message`
(src/src/conversation_manager.py): a RuntimeError is surfaced through
`_format_error_message`; any other exception — such as the TypeError from
the assistant-message persistence — is wrapped in the generic
unexpected-error message. -/
def process_message_error : PyError → String
  | .runtimeError msg => format_error_message msg
  | .typeError msg => "Jarvis ran into an unexpected error. " ++ msg

/-- Field-length bound of the audit logger sanitizer. -/
def MAX_FIELD_LENGTH : Nat := 2000

/-- Models `ApiLogger._truncate`. -/
def truncate_field (value : String) : String :=
  if value.length ≤ MAX_FIELD_LENGTH then value
  else value.take MAX_FIELD_LENGTH ++ "...(truncated)"

mutual
/-- Models `ApiLogger._prepare_payload` on JSON-shaped payloads:
primitives pass through, strings are truncated, containers are sanitized
element-wise. -/
def prepare_payload : JsonVal → JsonVal
  | .null => .null
  | .bool b => .bool b
  | .num q => .num q
  | .str s => .str (truncate_field s)
  | .arr xs => .arr (prepare_payload_list xs)
  | .obj fs => .obj (prepare_payload_fields fs)

/-- Element-wise sanitization of a JSON array. -/
def prepare_payload_list : List JsonVal → List JsonVal
  | [] => []
  | x :: xs => prepare_payload x :: prepare_payload_list xs

/-- Element-wise sanitization of a JSON object. -/
def prepare_payload_fields : List (String × JsonVal) → List (String × JsonVal)
  | [] => []
  | (k, v) :: fs => (k, prepare_payload v) :: prepare_payload_fields fs
end

/-- The arguments of one `ApiLogger.log_call` invocation; `timestamp`
stands for the UTC timestamp the source reads from the clock. -/
structure LogCallArgs where
  timestamp : String
  service : String
  action : String
  request : Option JsonVal := none
  response : Option JsonVal := none
  error : Option String := none
  metadata : Option JsonVal := none

/-- The observable state of an `ApiLogger`: the flag snapshot, the
one-time-warning latch, the remembered disabled-mode error, the appended
audit entries and the emitted fallback warnings. -/
structure LoggerState where
  enabled : Bool
  disabled_warning_emitted : Bool
  last_disabled_error : Option String
  audit_entries : List JsonVal
  fallback_warnings : List String

/-- Python truthiness of the optional error text. -/
def truthy_opt_str : Option String → Bool
  | some s => s ≠ ""
  | none => false

/-- The rendered fallback warning ("API logging disabled; first error
captured from %s.%s: %s"). -/
def fallback_warning_text (a : LogCallArgs) : String :=
  "API logging disabled; first error captured from " ++ a.service ++ "." ++
  a.action ++ ": " ++ a.error.getD ""

/-- Sanitized rendering of an optional payload. -/
def opt_payload : Option JsonVal → JsonVal
  | none => .null
  | some v => prepare_payload v

/-- Models `ApiLogger.log_call` (src/src/api_logger.py): when disabled, a
truthy error updates the remembered error and emits the fallback warning
exactly once; when enabled, a sanitized entry is appended to the audit
log. -/
def log_call (st : LoggerState) (a : LogCallArgs) : LoggerState :=
  if st.enabled = false then
    if truthy_opt_str a.error then
      if st.disabled_warning_emitted = false then
        { st with last_disabled_error := a.error,
                  fallback_warnings := st.fallback_warnings ++ [fallback_warning_text a],
                  disabled_warning_emitted := true }
      else { st with last_disabled_error := a.error }
    else st
  else
    { st with audit_entries := st.audit_entries ++
        [.obj [("timestamp", .str a.timestamp), ("service", .str a.service),
               ("action", .str a.action), ("request", opt_payload a.request),
               ("response", opt_payload a.response),
               ("error", optStrJson a.error),
               ("metadata", opt_payload a.metadata)]] }

/-- A fresh logger constructed while the logging flag is off. -/
def disabled_logger_init : LoggerState :=
  { enabled := false, disabled_warning_emitted := false, last_disabled_error := none,
    audit_entries := [], fallback_warnings := [] }

/-- Runs a sequence of log-call invocations. -/
def run_log_calls (st : LoggerState) (calls : List LogCallArgs) : LoggerState :=
  calls.foldl log_call st

/-- The most recent truthy error text in a call sequence. -/
def last_error_text (calls : List LogCallArgs) : Option String :=
  calls.foldl (fun acc a => if truthy_opt_str a.error then a.error else acc) none

/-- The first call in the sequence carrying truthy error text. -/
def first_error_call (calls : List LogCallArgs) : Option LogCallArgs :=
  calls.find? (fun a => truthy_opt_str a.error)

/-- A persisted message record as `ConversationStorage.add_message` builds
it: exactly a role and a content value. -/
structure StoredMessage where
  role : String
  content : Option String
deriving DecidableEq, Repr

/-- A conversation session document (src/src/storage.py). -/
structure Session where
  session_id : String
  messages : List StoredMessage
  created_at : String
  updated_at : Option String
deriving DecidableEq, Repr

/-- The fixed persona prompt of src/src/config.py (triple-quoted in the
source, with its trailing spaces before each line break). -/
def SYSTEM_PROMPT : String :=
  "You are Jarvis, a helpful personal AI assistant. \n" ++
  "You communicate concisely, ask clarifying questions when needed, and help the user manage tasks and decisions. \n" ++
  "Keep your tone supportive and efficient."

/-- Models `ConversationStorage.get_or_create_session`: return the found
session unchanged, or append a fresh one seeded with the persona system
message and persist.  `nowts` is the creation timestamp read from the
clock; the second component is the persisted document. -/
def get_or_create_session (data : List Session) (sid nowts : String) :
    Session × List Session :=
  match data.find? (fun c => c.session_id == sid) with
  | some conv => (conv, data)
  | none =>
    let ns : Session :=
      { session_id := sid, messages := [{ role := "system", content := some SYSTEM_PROMPT }],
        created_at := nowts, updated_at := none }
    (ns, data ++ [ns])

/-- The session-scan of `ConversationStorage.add_message`: append to the
first matching session and refresh its updated-at stamp. -/
def add_message_go (sid role : String) (content : Option String) (nowts : String) :
    List Session → Option (List Session)
  | [] => none
  | c :: rest =>
    if c.session_id = sid then
      let msg : StoredMessage := { role := role, content := content }
      some ({ c with messages := c.messages ++ [msg], updated_at := some nowts } :: rest)
    else
      (add_message_go sid role content nowts rest).map (fun r => c :: r)

/-- Models `ConversationStorage.add_message` (src/src/storage.py): its
parameter list is exactly (session_id, role, content), and the record it
appends carries exactly those two message fields; a missing session is
created seeded with the persona message. -/
def add_message (data : List Session) (sid role : String) (content : Option String)
    (nowts : String) : List Session :=
  match add_message_go sid role content nowts data with
  | some d => d
  | none =>
    data ++ [{ session_id := sid,
               messages := [{ role := "system", content := some SYSTEM_PROMPT },
                            { role := role, content := content }],
               created_at := nowts, updated_at := none }]

/-- JSON rendering of a stored message for the history response. -/
def message_to_json (m : StoredMessage) : JsonVal :=
  .obj [("role", .str m.role), ("content", optStrJson m.content)]

/-- Models the GET /history/<session_id> route of src/jarvis_chat.py: get
or create the session, filter out system-role messages for display, and
answer 200 with the messages and the session id.  The second component is
the conversation document after the request. -/
def get_history (data : List Session) (session_id nowts : String) :
    (Nat × JsonVal) × List Session :=
  let gs := get_or_create_session data session_id nowts
  let messages := gs.1.messages.filter (fun m => m.role != "system")
  ((200, .obj [("messages", .arr (messages.map message_to_json)),
               ("session_id", .str session_id)]), gs.2)

/-- The configured maximum message length (src/src/config.py default). -/
def MAX_MESSAGE_LENGTH : Nat := 400

/-- Models `ConversationManager.validate_message`
(src/src/conversation_manager.py). -/
def validate_message (message : String) : Bool × Option String :=
  if message = "" ∨ pyStrip message = "" then (false, some "Message cannot be empty")
  else if message.length > MAX_MESSAGE_LENGTH then
    (false, some ("Message exceeds " ++ toString MAX_MESSAGE_LENGTH ++ " character limit"))
  else (true, none)


/-- Calendar stub used by concrete instantiations: an empty window, a
creation echoing its arguments with identifier "evt-1", and a read-back
that finds nothing (a failed/no-match verification read). -/
def wStub : CalendarStub :=
  { list_events_in_range := fun _ _ => .ok [],
    create_event := fun s st en d l =>
      .ok { event_id := some "evt-1", summary := s, start := st, end_ := en,
            description := d, location := l },
    get_event := fun _ => none }

/-- Concrete reference instant 2025-11-25T10:00 local. -/
def wNow : LocalDateTime := ⟨2025, 11, 25, 10, 0, 0⟩

/-- Arguments that trip the date gate everywhere: blank required
start_time (and absent end_time), and an unresolvable due_date, with the
non-time preconditions (summary, title, task id) satisfied. -/
def wArgsGate : List (String × String) :=
  [("summary", "Standup"), ("title", "Buy milk"), ("task_id", "T1"),
   ("start_time", ""), ("due_date", "whenever")]

/-- Arguments whose start/end are explicit ISO timestamps that clear the
gate (confidence 1.0, mid-morning hours). -/
def wArgsCreate : List (String × String) :=
  [("summary", "Board meeting"), ("start_time", "2025-11-26T10:00:00"),
   ("end_time", "2025-11-26T11:00:00")]

/-- The normalized mapping the gate computes for `wArgsCreate` at `wNow`. -/
def wNrm : List (String × ResolvedField) :=
  [("start_time",
    { iso := "2025-11-26T10:00:00+02:00", human := "Wednesday, 26 November 2025, 10:00",
      confidence := 1, is_relative := false, raw := "2025-11-26T10:00:00",
      late_hour := false }),
   ("end_time",
    { iso := "2025-11-26T11:00:00+02:00", human := "Wednesday, 26 November 2025, 11:00",
      confidence := 1, is_relative := false, raw := "2025-11-26T11:00:00",
      late_hour := false })]

/-- The event `wStub` returns for the `wArgsCreate` creation. -/
def wEv : CalendarEvent :=
  { event_id := some "evt-1", summary := "Board meeting",
    start := "2025-11-26T10:00:00+02:00", end_ := "2025-11-26T11:00:00+02:00",
    description := none, location := none }

/-- A stored task used by concrete update instantiations. -/
def wTask : TaskRec :=
  { id := "T1", title := "Buy milk", description := none, due_date := none,
    priority := "normal", status := "pending",
    created_at := "2025-11-20T09:00:00+00:00", updated_at := "2025-11-20T09:00:00+00:00" }

/-- Disabled-logger call carrying the first error. -/
def wCallA : LogCallArgs :=
  { timestamp := "t1", service := "openai", action := "chat", error := some "boom" }

/-- Disabled-logger call carrying the second error. -/
def wCallB : LogCallArgs :=
  { timestamp := "t2", service := "openai", action := "chat", error := some "second error" }

/-- A client whose every response requests one tool call and carries no
final text. -/
def wToolClient : Nat → LoopResponse := fun _ =>
  { content := none,
    tool_calls := [{ id := "call_1", name := "create_task", arguments := [] }] }

/-- C5 counterexample: a 401-character all-whitespace message exceeds the
400-character maximum, yet validation fails with the "empty" error, whose
text does not contain the configured maximum — refuting the claim's
third clause as universally stated. -/
theorem C5_counterexample_overlong_blank :
    validate_message (String.mk (List.replicate 401 ' ')) =
      (false, some "Message cannot be empty")
    ∧ (String.mk (List.replicate 401 ' ')).length > MAX_MESSAGE_LENGTH
    ∧ strContains "Message cannot be empty" (toString MAX_MESSAGE_LENGTH) = false := by
  refine ⟨?_, by decide, by decide⟩
  decide

/-- C5 (amended): validation fails with the "empty" error for every blank
message; passes for every non-blank message of length at most the
configured maximum (400); and for every non-blank message strictly longer
than the maximum it fails with an error text containing the configured
maximum. -/
theorem C5_validate_message_boundaries :
    (∀ m : String, (m = "" ∨ pyStrip m = "") →
      validate_message m = (false, some "Message cannot be empty"))
    ∧ (∀ m : String, ¬(m = "" ∨ pyStrip m = "") → m.length ≤ MAX_MESSAGE_LENGTH →
      validate_message m = (true, none))
    ∧ (∀ m : String, ¬(m = "" ∨ pyStrip m = "") → m.length > MAX_MESSAGE_LENGTH →
      validate_message m =
        (false, some ("Message exceeds " ++ toString MAX_MESSAGE_LENGTH ++ " character limit"))
      ∧ strContains ("Message exceeds " ++ toString MAX_MESSAGE_LENGTH ++ " character limit")
          (toString MAX_MESSAGE_LENGTH) = true) := by
  refine ⟨?_, ?_, ?_⟩
  · intro m h
    simp only [validate_message, if_pos h]
  · intro m h hlen
    rw [validate_message, if_neg h, if_neg (by omega)]
  · intro m h hlen
    refine ⟨?_, by decide⟩
    rw [validate_message, if_neg h, if_pos (by omega)]

/-- C5 witness: the amended theorem applied at concrete messages — a
blank message, a short message, one of exactly 400 characters, and one of
401 characters. -/
theorem C5_validate_message_boundaries_witness :
    validate_message "  " = (false, some "Message cannot be empty")
    ∧ validate_message "Hello, Jarvis!" = (true, none)
    ∧ validate_message (String.mk (List.replicate 400 'x')) = (true, none)
    ∧ validate_message (String.mk (List.replicate 401 'x')) =
        (false, some ("Message exceeds " ++ toString MAX_MESSAGE_LENGTH ++ " character limit")) := by
  refine ⟨C5_validate_message_boundaries.1 "  " (by decide),
          C5_validate_message_boundaries.2.1 "Hello, Jarvis!" (by decide) (by decide),
          C5_validate_message_boundaries.2.1 _ ?_ ?_,
          (C5_validate_message_boundaries.2.2 _ ?_ ?_).1⟩
  · decide
  · decide
  · decide
  · decide

/-- C7: priority normalization is total and coercing — falsy input and any
value whose lowercasing is outside the valid set yield "normal", members
pass through lowercased — while status normalization rejects any value
whose lowercasing is outside the two-value status set with the validation
error. -/
theorem C7_priority_coerces_status_rejects :
    normalize_priority none = "normal"
    ∧ normalize_priority (some "") = "normal"
    ∧ (∀ s : String, pyLower s ∉ VALID_PRIORITIES → normalize_priority (some s) = "normal")
    ∧ (∀ s : String, pyLower s ∈ VALID_PRIORITIES → normalize_priority (some s) = pyLower s)
    ∧ (∀ s : String, pyLower s ∉ VALID_STATUSES →
        normalize_status s =
          .error ("Unsupported status " ++ squote ++ pyLower s ++ squote ++ ".")) := by
  refine ⟨rfl, rfl, ?_, ?_, ?_⟩
  · intro s h
    by_cases hs : s = ""
    · subst hs; rfl
    · simp only [normalize_priority, if_neg hs, if_neg h]
  · intro s h
    by_cases hs : s = ""
    · subst hs; exact absurd h (by decide)
    · simp only [normalize_priority, if_neg hs, if_pos h]
  · intro s h
    simp only [normalize_status, if_neg h]

/-- C7 witness: the theorem applied at concrete labels — an unknown
priority coerces to "normal", a known upper-case priority passes through
lowercased, and an unknown status is rejected with the validation
error. -/
theorem C7_priority_coerces_status_rejects_witness :
    normalize_priority (some "URGENT") = "normal"
    ∧ normalize_priority (some "HIGH") = "high"
    ∧ normalize_status "archived" =
        .error ("Unsupported status " ++ squote ++ "archived" ++ squote ++ ".") := by
  refine ⟨C7_priority_coerces_status_rejects.2.2.1 "URGENT" (by decide), ?_, ?_⟩
  · have h := C7_priority_coerces_status_rejects.2.2.2.1 "HIGH" (by decide)
    simpa using h
  · have h := C7_priority_coerces_status_rejects.2.2.2.2 "archived" (by decide)
    simpa using h

/-- C2: the conversation-storage append operation does not accept the
extra named fields the Conversation Manager passes — binding the
tool-result call (four positional arguments plus the tool_call_id and
name keywords) against the declared parameter list of
`ConversationStorage.add_message` fails (a Python TypeError), and the
record `add_message` appends carries exactly a role and a content field. -/
theorem C2_add_message_extra_fields_bug :
    binds_python_call add_message_params false 4 ["tool_call_id", "name"] = false
    ∧ add_message [] "s1" "tool" (some "\x7b\x7d") "2025-11-25T10:00:00" =
        [{ session_id := "s1",
           messages := [{ role := "system", content := some SYSTEM_PROMPT },
                        { role := "tool", content := some "\x7b\x7d" }],
           created_at := "2025-11-25T10:00:00", updated_at := none }] := by
  exact ⟨rfl, rfl⟩

/-- C9: a GET of the history route for an unseen session identifier
creates the session (persisting it seeded with the single persona system
message) and answers 200 with an empty message list and the given
session id. -/
theorem C9_history_get_creates_session (data : List Session) (sid nowts : String)
    (h : ∀ c ∈ data, c.session_id ≠ sid) :
    get_history data sid nowts =
      ((200, .obj [("messages", .arr []), ("session_id", .str sid)]),
       data ++ [{ session_id := sid,
                  messages := [{ role := "system", content := some SYSTEM_PROMPT }],
                  created_at := nowts, updated_at := none }]) := by
  have hf : data.find? (fun c => c.session_id == sid) = none := by
    rw [List.find?_eq_none]
    intro c hc
    simpa using h c hc
  simp only [get_history, get_or_create_session, hf]
  rfl

/-- C9 witness: the theorem applied to a store holding one other session. -/
theorem C9_history_get_creates_session_witness :
    get_history [{ session_id := "other",
                   messages := [{ role := "system", content := some SYSTEM_PROMPT }],
                   created_at := "t0", updated_at := none }] "test123" "t9" =
      ((200, .obj [("messages", .arr []), ("session_id", .str "test123")]),
       [{ session_id := "other",
          messages := [{ role := "system", content := some SYSTEM_PROMPT }],
          created_at := "t0", updated_at := none },
        { session_id := "test123",
          messages := [{ role := "system", content := some SYSTEM_PROMPT }],
          created_at := "t9", updated_at := none }]) := by
  have h := C9_history_get_creates_session
    [{ session_id := "other",
       messages := [{ role := "system", content := some SYSTEM_PROMPT }],
       created_at := "t0", updated_at := none }] "test123" "t9" (by decide)
  simpa using h

/-- C6: with reference instant 2025-11-25T10:00 local, "Tomorrow at 3 pm"
resolves to 2025-11-26 15:00 local (isoformat 2025-11-26T15:00:00+02:00)
at confidence exactly 0.9, flagged relative; and any input that matches
no ISO form and contains no relative keyword resolves to no timestamp at
confidence exactly 0.0, flagged non-relative, preserving the trimmed
original text. -/
theorem C6_resolve_time_reference_cases :
    (resolve_time_reference (some "Tomorrow at 3 pm") ⟨2025, 11, 25, 10, 0, 0⟩ =
       { iso := some ⟨2025, 11, 26, 15, 0, 0⟩, confidence := mkRat 9 10,
         source_text := "tomorrow at 3 pm", is_relative := true }
     ∧ isoformat ⟨2025, 11, 26, 15, 0, 0⟩ = "2025-11-26T15:00:00+02:00")
    ∧ (∀ (s : String) (ref : LocalDateTime),
        try_parse_iso (pyStrip s) = none →
        (∀ kw ∈ RELATIVE_KEYWORDS, strContains (pyLower (pyStrip s)) kw.1 = false) →
        resolve_time_reference (some s) ref =
          { iso := none, confidence := 0, source_text := pyStrip s, is_relative := false }) := by
  refine ⟨⟨by rfl, by rfl⟩, ?_⟩
  intro s ref h1 h2
  by_cases hs : s = ""
  · subst hs; rfl
  · have hfind : RELATIVE_KEYWORDS.find?
        (fun kw => strContains (pyLower (pyStrip s)) kw.1) = none := by
      rw [List.find?_eq_none]
      intro kw hkw
      simp [h2 kw hkw]
    simp only [resolve_time_reference, if_neg hs, h1, try_parse_relative, hfind]

/-- C6 witness: the universal clause applied at the concrete input
"someday maybe", which matches no ISO form and no relative keyword. -/
theorem C6_resolve_time_reference_cases_witness :
    resolve_time_reference (some "someday maybe") ⟨2025, 11, 25, 10, 0, 0⟩ =
      { iso := none, confidence := 0, source_text := "someday maybe",
        is_relative := false } := by
  have h := C6_resolve_time_reference_cases.2 "someday maybe" ⟨2025, 11, 25, 10, 0, 0⟩
    (by decide) (by decide)
  simpa using h

/-- The loop makes at most `calls + fuel` client calls, whichever way an
iteration ends — recursion, return, fatal fall-through, or the
persistence TypeError. -/
theorem run_loop_aux_calls_le (client : Nat → LoopResponse) :
    ∀ (fuel calls : Nat), (run_loop_aux client calls fuel).2 ≤ calls + fuel := by
  intro fuel
  induction fuel with
  | zero => intro calls; simp [run_loop_aux]
  | succ n ih =>
    intro calls
    simp only [run_loop_aux]
    split
    · split
      · split
        · exact le_trans (ih (calls + 1)) (by omega)
        · show calls + 1 ≤ calls + (n + 1)
          omega
      · split
        · split
          · show calls + 1 ≤ calls + (n + 1)
            omega
          · show calls + 1 ≤ calls + (n + 1)
            omega
        · show calls + 1 ≤ calls + (n + 1)
          omega
    · show calls + 1 ≤ calls + (n + 1)
      omega

/-- C4: the claim is right about the intended loop but the code breaks
it.  The 3-call bound does hold for every client.  However, a turn whose
response carries tool calls aborts after a single client call: persisting
the assistant message passes the tool_calls extra field to
`storage.add_message`, whose parameter list rejects it, so the TypeError
escapes the loop and the turn surfaces the generic unexpected-error text
— never the claimed fatal text.  The claimed text is produced (and passed
through verbatim by the turn boundary) only on a tool-free run that ends
with neither text nor tool calls. -/
theorem C4_tool_call_persistence_breaks_loop :
    (∀ client : Nat → LoopResponse, (run_conversation_loop client).2 ≤ 3)
    ∧ run_conversation_loop wToolClient =
        (.error (.typeError (ADD_MESSAGE_TYPE_ERROR "tool_calls")), 1)
    ∧ process_message_error (.typeError (ADD_MESSAGE_TYPE_ERROR "tool_calls")) =
        "Jarvis ran into an unexpected error. " ++ ADD_MESSAGE_TYPE_ERROR "tool_calls"
    ∧ process_message_error (.typeError (ADD_MESSAGE_TYPE_ERROR "tool_calls")) ≠ UNABLE_MSG
    ∧ run_conversation_loop (fun _ => { content := none, tool_calls := [] }) =
        (.error (.runtimeError UNABLE_MSG), 1)
    ∧ process_message_error (.runtimeError UNABLE_MSG) = UNABLE_MSG := by
  refine ⟨fun client => run_loop_aux_calls_le client 3 0, by rfl, by rfl, by decide,
    by rfl, by rfl⟩

/-- The log-call operation never changes the enabled snapshot. -/
theorem log_call_enabled (st : LoggerState) (a : LogCallArgs) :
    (log_call st a).enabled = st.enabled := by
  unfold log_call
  split_ifs <;> rfl

/-- When disabled, one log call leaves the audit entries untouched. -/
theorem log_call_disabled_entries (st : LoggerState) (a : LogCallArgs)
    (hst : st.enabled = false) : (log_call st a).audit_entries = st.audit_entries := by
  unfold log_call
  rw [if_pos hst]
  split_ifs <;> rfl

/-- When disabled, one log call updates the remembered error exactly when
the supplied error text is truthy. -/
theorem log_call_disabled_last (st : LoggerState) (a : LogCallArgs)
    (hst : st.enabled = false) :
    (log_call st a).last_disabled_error =
      (if truthy_opt_str a.error then a.error else st.last_disabled_error) := by
  unfold log_call
  rw [if_pos hst]
  split_ifs <;> rfl

/-- A disabled logger appends nothing to the audit log. -/
theorem run_log_calls_disabled_entries (calls : List LogCallArgs) :
    ∀ st : LoggerState, st.enabled = false →
      (run_log_calls st calls).audit_entries = st.audit_entries := by
  induction calls with
  | nil => intro st _; rfl
  | cons a rest ih =>
    intro st hst
    show (run_log_calls (log_call st a) rest).audit_entries = st.audit_entries
    rw [ih (log_call st a) (by rw [log_call_enabled, hst]),
        log_call_disabled_entries st a hst]

/-- A disabled logger remembers the most recent truthy error text. -/
theorem run_log_calls_disabled_last (calls : List LogCallArgs) :
    ∀ st : LoggerState, st.enabled = false →
      (run_log_calls st calls).last_disabled_error =
        calls.foldl (fun acc a => if truthy_opt_str a.error then a.error else acc)
          st.last_disabled_error := by
  induction calls with
  | nil => intro st _; rfl
  | cons a rest ih =>
    intro st hst
    rw [List.foldl_cons]
    show (run_log_calls (log_call st a) rest).last_disabled_error = _
    rw [ih (log_call st a) (by rw [log_call_enabled, hst]),
        log_call_disabled_last st a hst]

/-- Once the one-time warning latch is set, a disabled logger emits no
further fallback warnings. -/
theorem run_log_calls_disabled_emitted (calls : List LogCallArgs) :
    ∀ st : LoggerState, st.enabled = false → st.disabled_warning_emitted = true →
      (run_log_calls st calls).fallback_warnings = st.fallback_warnings := by
  induction calls with
  | nil => intro st _ _; rfl
  | cons a rest ih =>
    intro st hst hem
    show (run_log_calls (log_call st a) rest).fallback_warnings = st.fallback_warnings
    have hstep : log_call st a =
        { st with last_disabled_error :=
            if truthy_opt_str a.error then a.error else st.last_disabled_error } := by
      unfold log_call
      rw [if_pos hst]
      by_cases he : truthy_opt_str a.error
      · rw [if_pos he, if_neg (by simp [hem]), if_pos he]
      · rw [if_neg he, if_neg he]
    rw [hstep, ih _ (by rw [hst]) (by simpa using hem)]

/-- A disabled logger with the latch clear emits exactly the warning of
the first truthy-error call, if any. -/
theorem run_log_calls_disabled_fresh (calls : List LogCallArgs) :
    ∀ st : LoggerState, st.enabled = false → st.disabled_warning_emitted = false →
      (run_log_calls st calls).fallback_warnings =
        st.fallback_warnings ++ ((first_error_call calls).map fallback_warning_text).toList := by
  induction calls with
  | nil => intro st _ _; simp [run_log_calls, first_error_call]
  | cons a rest ih =>
    intro st hst hem
    show (run_log_calls (log_call st a) rest).fallback_warnings = _
    by_cases he : truthy_opt_str a.error
    · have hstep : log_call st a =
          { st with last_disabled_error := a.error,
                    fallback_warnings := st.fallback_warnings ++ [fallback_warning_text a],
                    disabled_warning_emitted := true } := by
        unfold log_call
        rw [if_pos hst, if_pos he, if_pos hem]
      rw [hstep, run_log_calls_disabled_emitted rest _ (by rw [hst]) (by rfl)]
      simp [first_error_call, he]
    · have hstep : log_call st a = st := by
        unfold log_call
        rw [if_pos hst, if_neg he]
      rw [hstep, ih st hst hem]
      simp [first_error_call, he]

/-- C8: with audit logging disabled, any sequence of log-call invocations
writes nothing to the audit log, emits exactly the fallback warning of the
first invocation carrying truthy error text (one warning iff any error was
supplied), and the remembered last-disabled error always equals the most
recent error text supplied; in particular, after the two consecutive
failed calls "boom" then "second error", one warning was emitted and the
remembered error is "second error". -/
theorem C8_disabled_logger_behaviour (calls : List LogCallArgs) :
    (run_log_calls disabled_logger_init calls).audit_entries = []
    ∧ (run_log_calls disabled_logger_init calls).fallback_warnings =
        ((first_error_call calls).map fallback_warning_text).toList
    ∧ (run_log_calls disabled_logger_init calls).fallback_warnings.length =
        (if calls.any (fun a => truthy_opt_str a.error) then 1 else 0)
    ∧ (run_log_calls disabled_logger_init calls).last_disabled_error = last_error_text calls
    ∧ (run_log_calls disabled_logger_init [wCallA, wCallB]).last_disabled_error =
        some "second error"
    ∧ (run_log_calls disabled_logger_init [wCallA, wCallB]).fallback_warnings =
        [fallback_warning_text wCallA] := by
  have hw := run_log_calls_disabled_fresh calls disabled_logger_init rfl rfl
  refine ⟨run_log_calls_disabled_entries calls disabled_logger_init rfl,
          by simpa using hw, ?_, run_log_calls_disabled_last calls disabled_logger_init rfl,
          by rfl, by rfl⟩
  rw [hw]
  rcases hfe : first_error_call calls with _ | a
  · have hnone : ∀ x ∈ calls, ¬ (truthy_opt_str x.error = true) :=
      List.find?_eq_none.mp hfe
    rw [if_neg]
    · simp [disabled_logger_init]
    · simp only [List.any_eq_true]
      rintro ⟨x, hx, hpx⟩
      exact hnone x hx hpx
  · rw [if_pos]
    · simp [disabled_logger_init]
    · have hmem := List.mem_of_find?_eq_some hfe
      have hp := List.find?_some hfe
      simp only [List.any_eq_true]
      exact ⟨a, hmem, hp⟩

/-- Applying the field updates with an invalid status raises the
unsupported-status error, whatever the other supplied updates are. -/
theorem apply_task_updates_bad_status (ts : String) (t : TaskRec)
    (title description due_date priority : Option String) (status : String)
    (hbad : pyLower status ∉ VALID_STATUSES) :
    apply_task_updates ts t title description due_date priority (some status) =
      .error ("Unsupported status " ++ squote ++ pyLower status ++ squote ++ ".") := by
  have hns : normalize_status status =
      .error ("Unsupported status " ++ squote ++ pyLower status ++ squote ++ ".") := by
    unfold normalize_status
    rw [if_neg hbad]
  simp only [apply_task_updates, bind, Except.bind, hns]

/-- The search loop raises the unsupported-status error whenever a task
with the given identifier exists and the status is invalid. -/
theorem update_task_go_bad_status (ts task_id : String)
    (title description due_date priority : Option String) (status : String)
    (hbad : pyLower status ∉ VALID_STATUSES) :
    ∀ tasks : List TaskRec, (∃ t ∈ tasks, t.id = task_id) →
      update_task_go ts task_id title description due_date priority (some status) tasks =
        .error ("Unsupported status " ++ squote ++ pyLower status ++ squote ++ ".") := by
  intro tasks
  induction tasks with
  | nil => rintro ⟨t, ht, -⟩; cases ht
  | cons hd rest ih =>
    rintro ⟨t, ht, hid⟩
    by_cases hh : hd.id = task_id
    · unfold update_task_go
      rw [if_pos hh, apply_task_updates_bad_status ts hd title description due_date
        priority status hbad]
    · have htr : t ∈ rest := by
        rcases List.mem_cons.mp ht with rfl | h
        · exact absurd hid hh
        · exact h
      unfold update_task_go
      rw [if_neg hh, ih ⟨t, htr, hid⟩]

/-- C10: an update that carries an invalid status together with any other
field updates, for an identifier present in the stored list, raises the
unsupported-status error and leaves the persisted task list completely
unchanged — no other supplied update is written. -/
theorem C10_update_task_invalid_status_atomic (ts : String) (tasks : List TaskRec)
    (task_id : String) (title description due_date priority : Option String)
    (status : String)
    (hmem : ∃ t ∈ tasks, t.id = task_id)
    (hbad : pyLower status ∉ VALID_STATUSES) :
    update_task ts tasks task_id title description due_date priority (some status) =
      (.error ("Unsupported status " ++ squote ++ pyLower status ++ squote ++ "."), tasks) := by
  unfold update_task
  rw [update_task_go_bad_status ts task_id title description due_date priority status
    hbad tasks hmem]

/-- C10 witness: the theorem applied to a one-task store, an invalid
status "archived" and a simultaneous title update — the stored list comes
back unchanged. -/
theorem C10_update_task_invalid_status_atomic_witness :
    update_task "t2" [wTask] "T1" (some "New title") (some "desc") (some "2025-12-01")
        (some "high") (some "archived") =
      (.error ("Unsupported status " ++ squote ++ "archived" ++ squote ++ "."), [wTask]) := by
  have h := C10_update_task_invalid_status_atomic "t2" [wTask] "T1" (some "New title")
    (some "desc") (some "2025-12-01") (some "high") "archived"
    ⟨wTask, by simp, rfl⟩ (by decide)
  simpa using h

/-- One gate step only ever appends to the issue list. -/
theorem ensure_step_preserves_ne (now : LocalDateTime) (args : List (String × String))
    (req : List String) (acc : List (String × ResolvedField) × List String) (field : String)
    (h : acc.2 ≠ []) : (ensure_step now args req acc field).2 ≠ [] := by
  unfold ensure_step
  rcases hl : lookupArg args field with _ | raw
  · simp only [hl]
    split_ifs <;> simp [h]
  · simp only [hl]
    by_cases hraw : raw = ""
    · rw [if_pos hraw]
      split_ifs <;> simp [h]
    · rw [if_neg hraw]
      rcases hiso : (resolve_time_reference (some raw) now).iso with _ | localized
      · simp only [hiso]
        simp [h]
      · simp only [hiso]
        split_ifs <;> simp [h]

/-- A field satisfying the issue condition makes the gate step produce a
nonempty issue list. -/
theorem ensure_step_issue (now : LocalDateTime) (args : List (String × String))
    (req : List String) (acc : List (String × ResolvedField) × List String) (field : String)
    (h : timeFieldIssue now args req field) :
    (ensure_step now args req acc field).2 ≠ [] := by
  unfold ensure_step
  rcases h with ⟨habs, hmem⟩ | ⟨raw, hlook, hne, hbad⟩
  · rcases habs with habs | hblank
    · simp only [habs]
      rw [if_pos hmem]
      simp
    · simp only [hblank]
      simp [hmem]
  · simp only [hlook]
    rw [if_neg hne]
    rcases hbad with hiso | ⟨dt, hiso, hcl⟩
    · simp only [hiso]
      simp
    · simp only [hiso]
      rcases hcl with hconf | hlate
      · rw [if_pos hconf]
        split_ifs <;> simp
      · rw [if_pos hlate]
        simp

/-- If some processed field has an issue (or issues were already
collected), the gate's fold ends with a nonempty issue list. -/
theorem ensure_fold_issue_ne (now : LocalDateTime) (args : List (String × String))
    (req : List String) :
    ∀ (fields : List String) (acc : List (String × ResolvedField) × List String),
      ((∃ f ∈ fields, timeFieldIssue now args req f) ∨ acc.2 ≠ []) →
      (fields.foldl (ensure_step now args req) acc).2 ≠ [] := by
  intro fields
  induction fields with
  | nil =>
    rintro acc (⟨f, hf, -⟩ | h)
    · cases hf
    · exact h
  | cons f fs ih =>
    rintro acc h
    rw [List.foldl_cons]
    apply ih
    rcases h with ⟨g, hg, hig⟩ | hacc
    · rcases List.mem_cons.mp hg with rfl | hgs
      · exact Or.inr (ensure_step_issue now args req acc g hig)
      · exact Or.inl ⟨g, hgs, hig⟩
    · exact Or.inr (ensure_step_preserves_ne now args req acc f hacc)

/-- When some required or optional field has an issue, the gate returns
the structured confirmation payload built from a nonempty issue list. -/
theorem ensure_confirm_of_issue (now : LocalDateTime) (args : List (String × String))
    (req opt : List String)
    (h : ∃ f ∈ req ++ opt, timeFieldIssue now args req f) :
    ∃ issues normalized, issues ≠ [] ∧
      ensure_confident_times now args req opt =
        .confirm (build_confirmation_error issues normalized) := by
  have hne := ensure_fold_issue_ne now args req (req ++ opt) ([], []) (Or.inl h)
  refine ⟨((req ++ opt).foldl (ensure_step now args req) ([], [])).2,
          ((req ++ opt).foldl (ensure_step now args req) ([], [])).1, hne, ?_⟩
  unfold ensure_confident_times
  rw [if_neg hne]

/-- C1: whenever any required time field is absent or blank, or any
supplied time field fails to resolve, resolves below the 0.98 confidence
threshold, or resolves to a late-hour (at or after 21:00 local) time, the
availability-check and create-event handlers (start/end required) and the
task-creation and task-update handlers (due date optional) return the
failure payload tagged DATE_CONFIRMATION_REQUIRED built from the nonempty
issue list, and invoke no Calendar Provider or Task Manager operation —
the recorded call list is empty and the task store is untouched.  The
handlers' non-time preconditions (a truthy summary, title, task id) are
assumed, since the source checks them before the gate. -/
theorem C1_date_confirmation_gate (now : LocalDateTime) (args : List (String × String))
    (cal : CalendarStub) (uuid ts : String) (tasks : List TaskRec) :
    ((timeFieldIssue now args ["start_time", "end_time"] "start_time" ∨
      timeFieldIssue now args ["start_time", "end_time"] "end_time") →
      (∃ p, is_confirmation_payload p ∧
        handle_check_calendar_status cal now args = (.ok p, []))
      ∧ (∀ sm, lookupArg args "summary" = some sm → sm ≠ "" →
          ∃ p, is_confirmation_payload p ∧ handle_create_event cal now args = (.ok p, [])))
    ∧ (timeFieldIssue now args [] "due_date" →
      (∀ t, lookupArg args "title" = some t → t ≠ "" →
        ∃ p, is_confirmation_payload p ∧
          handle_create_task uuid ts tasks now args = (.ok p, [], tasks))
      ∧ (∀ tid, lookupArg args "task_id" = some tid → tid ≠ "" →
        ∃ p, is_confirmation_payload p ∧
          handle_update_task ts tasks now args = (.ok p, [], tasks))) := by
  constructor
  · intro hse
    have hmem : ∃ f ∈ ["start_time", "end_time"] ++ ([] : List String),
        timeFieldIssue now args ["start_time", "end_time"] f := by
      rcases hse with h | h
      · exact ⟨"start_time", by simp, h⟩
      · exact ⟨"end_time", by simp, h⟩
    obtain ⟨issues, nrm, hne, heq⟩ :=
      ensure_confirm_of_issue now args ["start_time", "end_time"] [] hmem
    constructor
    · refine ⟨build_confirmation_error issues nrm, ⟨issues, nrm, hne, rfl⟩, ?_⟩
      simp only [handle_check_calendar_status, heq]
    · intro sm hsum hsm
      refine ⟨build_confirmation_error issues nrm, ⟨issues, nrm, hne, rfl⟩, ?_⟩
      simp only [handle_create_event, hsum]
      rw [if_neg hsm]
      simp only [heq]
  · intro hdue
    have hmem : ∃ f ∈ ([] : List String) ++ ["due_date"],
        timeFieldIssue now args [] f := ⟨"due_date", by simp, hdue⟩
    obtain ⟨issues, nrm, hne, heq⟩ := ensure_confirm_of_issue now args [] ["due_date"] hmem
    constructor
    · intro t htitle ht
      refine ⟨build_confirmation_error issues nrm, ⟨issues, nrm, hne, rfl⟩, ?_⟩
      simp only [handle_create_task, htitle]
      rw [if_neg ht]
      simp only [heq]
    · intro tid htid htidne
      refine ⟨build_confirmation_error issues nrm, ⟨issues, nrm, hne, rfl⟩, ?_⟩
      simp only [handle_update_task, htid]
      rw [if_neg htidne]
      simp only [heq]

/-- C1 witness: concrete arguments with a blank required start time, an
absent end time and an unresolvable due date — all four gated handlers
answer with the confirmation payload and an empty call record. -/
theorem C1_date_confirmation_gate_witness :
    (∃ p, is_confirmation_payload p ∧
      handle_check_calendar_status wStub wNow wArgsGate = (.ok p, []))
    ∧ (∃ p, is_confirmation_payload p ∧
        handle_create_event wStub wNow wArgsGate = (.ok p, []))
    ∧ (∃ p, is_confirmation_payload p ∧
        handle_create_task "u1" "t1" [] wNow wArgsGate = (.ok p, [], []))
    ∧ (∃ p, is_confirmation_payload p ∧
        handle_update_task "t1" [] wNow wArgsGate = (.ok p, [], [])) := by
  have h := C1_date_confirmation_gate wNow wArgsGate wStub "u1" "t1" []
  have hse : timeFieldIssue wNow wArgsGate ["start_time", "end_time"] "start_time" :=
    Or.inl ⟨Or.inr (by rfl), by simp⟩
  have hdue : timeFieldIssue wNow wArgsGate [] "due_date" :=
    Or.inr ⟨"whenever", by rfl, by simp, Or.inl (by rfl)⟩
  exact ⟨(h.1 (Or.inl hse)).1, (h.1 (Or.inl hse)).2 "Standup" (by rfl) (by simp),
         (h.2 hdue).1 "Buy milk" (by rfl) (by simp),
         (h.2 hdue).2 "T1" (by rfl) (by simp)⟩

/-- C3: when the create-event gate passes and the conflict re-check finds
no conflicting events, the handler creates the event and answers with the
success payload carrying the created event, the resolved time
interpretations, and the verification read-back — for every possible
read-back outcome, including a read that finds nothing (absent
verification), the result is this success payload, never an error. -/
theorem C3_create_event_success (cal : CalendarStub) (now : LocalDateTime)
    (args : List (String × String)) (sm : String)
    (normalized : List (String × ResolvedField)) (si ei : ResolvedField)
    (ev : CalendarEvent)
    (hsum : lookupArg args "summary" = some sm) (hsmne : sm ≠ "")
    (hok : ensure_confident_times now args ["start_time", "end_time"] [] = .ok normalized)
    (hs : lookupField normalized "start_time" = some si)
    (he : lookupField normalized "end_time" = some ei)
    (hconf : cal.list_events_in_range si.iso ei.iso = .ok [])
    (hcr : cal.create_event sm si.iso ei.iso (lookupArg args "description")
      (lookupArg args "location") = .ok ev) :
    handle_create_event cal now args =
      (.ok (.obj [("created", .bool true), ("event", ev.to_dict),
                  ("resolved_times", summarize_resolutions normalized),
                  ("verification", event_to_dict_opt (verification_read cal ev))]),
       [.listEventsInRange si.iso ei.iso,
        .createEvent sm si.iso ei.iso (lookupArg args "description")
          (lookupArg args "location")] ++ verification_calls ev) := by
  simp only [handle_create_event, hsum]
  rw [if_neg hsmne]
  simp only [hok, hs, he, hconf, hcr]
  simp

/-- C3 witness: the theorem at a concrete gate-passing creation against a
stub whose read-back finds nothing — the result is still the success
payload, with an absent verification. -/
theorem C3_create_event_success_witness :
    handle_create_event wStub wNow wArgsCreate =
      (.ok (.obj [("created", .bool true), ("event", wEv.to_dict),
                  ("resolved_times", summarize_resolutions wNrm),
                  ("verification", event_to_dict_opt (verification_read wStub wEv))]),
       [.listEventsInRange "2025-11-26T10:00:00+02:00" "2025-11-26T11:00:00+02:00",
        .createEvent "Board meeting" "2025-11-26T10:00:00+02:00"
          "2025-11-26T11:00:00+02:00" none none] ++ verification_calls wEv) := by
  have h := C3_create_event_success wStub wNow wArgsCreate "Board meeting" wNrm
    { iso := "2025-11-26T10:00:00+02:00", human := "Wednesday, 26 November 2025, 10:00",
      confidence := 1, is_relative := false, raw := "2025-11-26T10:00:00",
      late_hour := false }
    { iso := "2025-11-26T11:00:00+02:00", human := "Wednesday, 26 November 2025, 11:00",
      confidence := 1, is_relative := false, raw := "2025-11-26T11:00:00",
      late_hour := false }
    wEv (by rfl) (by simp) (by rfl) (by rfl) (by rfl) (by rfl) (by rfl)
  exact h
